import Mathlib

/-!
Verification development for the FitTrainer-Pro views.

The definitions below are a shallow embedding of the data-shaping and
control logic of the repository's view layer:

* the "completed today" windows built from client-computed UTC day strings
  (`Dashboard.loadStats`, `StudentDiet.fetchStudentData`,
  `StudentWorkout.loadStudentData`);
* the dashboard statistics retry loop (`Dashboard.loadStatsWithRetry`);
* the backend-call traces of the trainer handlers (`StudentList.loadStudents`,
  `StudentDiet.handleMealCompletion`, `StudentWorkout.markExerciseAsCompleted`,
  `Login.handleLogin`);
* the student-portal single-active-plan fetches (`.single()` /
  `.maybeSingle()` semantics);
* the client-side sorting of meals, sessions and exercises;
* the completion toggle handlers of the combined student view and the
  insert-only completion paths, as a small action semantics on the portal
  state;
* the soft delete of a student (`StudentList.deleteStudent`).

Timestamps are modelled as natural numbers of milliseconds since the epoch;
database text columns are Lean `String`s.
-/

/-- A row of the `meal_completions` table. -/
structure MealCompletionRow where
  meal_id : String
  student_id : String
  completed_at : Nat
deriving DecidableEq, Repr

/-- A row of the `exercise_completions` table. -/
structure ExerciseCompletionRow where
  workout_exercise_id : String
  student_id : String
  completed_at : Nat
deriving DecidableEq, Repr

/-- A row of the `students` table, with the fields the dashboard reads. -/
structure StudentRow where
  id : String
  personal_trainer_id : String
  name : String
  email : Option String
  phone : Option String
  unique_link_token : String
  active : Bool
  created_at : Nat
deriving DecidableEq, Repr

/-- A row of the `workout_plans` or `diet_plans` tables (shared shape). -/
structure PlanRow where
  id : String
  student_id : String
  personal_trainer_id : String
  name : String
  active : Bool
deriving DecidableEq, Repr

/-- A row of the `personal_trainers` table, with the fields login reads. -/
structure TrainerRow where
  id : String
  auth_user_id : String
  name : String
  cpf : String
  active : Bool
deriving DecidableEq, Repr

/-! ## Calendar-day windows (C2)

All four "completed today" queries in the source build the bounds
`gte(completed_at, todayT00:00:00)` and `lt(completed_at, todayT23:59:59)`
from `today = new Date().toISOString().split('T')[0]`, the UTC day.
In milliseconds the lower bound is the day's start and the strict upper
bound sits 86399000 ms after it (23 h 59 min 59 s). -/

/-- Milliseconds in one UTC calendar day. -/
def msPerDay : Nat := 86400000

/-- Millisecond offset of the string bound `T23:59:59` from `T00:00:00`. -/
def lastSecondOffset : Nat := 86399000

/-- The window predicate the code's `gte`/`lt` pair evaluates on a
`completed_at` timestamp `t`, for the day starting at `dayStart`. -/
def completedTodayWindow (dayStart t : Nat) : Bool :=
  decide (dayStart ≤ t) && decide (t < dayStart + lastSecondOffset)

/-- Membership of `t` in the full UTC calendar day starting at `dayStart`:
the half-open interval up to the next day's start. -/
def inUtcCalendarDay (dayStart t : Nat) : Bool :=
  decide (dayStart ≤ t) && decide (t < dayStart + msPerDay)

/-- `StudentDiet.fetchStudentData`: today's meal completions of a student. -/
def mealCompletionsToday (rows : List MealCompletionRow) (sid : String)
    (dayStart : Nat) : List MealCompletionRow :=
  rows.filter fun r => r.student_id == sid && completedTodayWindow dayStart r.completed_at

/-- `StudentDiet.fetchStudentData` / `StudentWorkout.loadStudentData`:
today's exercise completions of a student. -/
def exerciseCompletionsToday (rows : List ExerciseCompletionRow) (sid : String)
    (dayStart : Nat) : List ExerciseCompletionRow :=
  rows.filter fun r => r.student_id == sid && completedTodayWindow dayStart r.completed_at

/-- `Dashboard.loadStats`: today's exercise completions over the trainer's
student ids (the `.in("student_id", ids)` query). -/
def statsCompletionsToday (rows : List ExerciseCompletionRow)
    (studentIds : List String) (dayStart : Nat) : List ExerciseCompletionRow :=
  rows.filter fun r => studentIds.contains r.student_id && completedTodayWindow dayStart r.completed_at

/-! ## Dashboard statistics retry loop (C3) -/

/-- Observable trace of one `loadStatsWithRetry` execution: how many
`loadStats` attempts ran, the waits performed between them (ms), and
whether the failure notification was shown. -/
structure RetryTrace where
  attempts : Nat
  delays : List Nat
  notified : Bool
deriving DecidableEq, Repr

/-- The body of the `for (let i = 0; i < retries; i++)` loop of
`Dashboard.loadStatsWithRetry`, from index `i` with `fuel = retries - i`
iterations left. `outcome i` tells whether the i-th `loadStats` call
succeeds. On success the loop breaks; on failure at the last index it
notifies; otherwise it waits 1000 ms and continues. -/
def retryFrom (outcome : Nat → Bool) (retries : Nat) : Nat → Nat → RetryTrace
  | 0, _ => ⟨0, [], false⟩
  | fuel + 1, i =>
    if outcome i then ⟨1, [], false⟩
    else if i = retries - 1 then ⟨1, [], true⟩
    else
      let rest := retryFrom outcome retries fuel (i + 1)
      ⟨rest.attempts + 1, 1000 :: rest.delays, rest.notified⟩

/-- `Dashboard.loadStatsWithRetry(trainerId, retries = 3)`. -/
def loadStatsWithRetry (outcome : Nat → Bool) (retries : Nat) : RetryTrace :=
  retryFrom outcome retries retries 0

/-! ## Generated-client single-row semantics (C5, C6)

`.single()` succeeds exactly on a one-row result set; `.maybeSingle()`
additionally tolerates the empty result set. `none` models the error
outcome (data `null`, error set). -/

/-- Result of a `.single()` query over the matched rows. -/
def dbSingle {α : Type} (rows : List α) : Option α :=
  match rows with
  | [r] => some r
  | _ => none

/-- Result of a `.maybeSingle()` query over the matched rows: `some none`
for zero rows, `some (some r)` for one, error for more. -/
def dbMaybeSingle {α : Type} (rows : List α) : Option (Option α) :=
  match rows with
  | [] => some none
  | [r] => some (some r)
  | _ => none

/-! ## Active-plan fetches of the student portal (C6) -/

/-- The rows matched by `.eq("student_id", sid).eq("active", true)`. -/
def activePlansOf (plans : List PlanRow) (sid : String) : List PlanRow :=
  plans.filter fun p => p.student_id == sid && p.active

/-- `StudentDiet.fetchStudentData` diet-plan fetch: a `.single()` query;
the plan is rendered only when data came back without error. -/
def fetchActiveDietPlan (plans : List PlanRow) (sid : String) : Option PlanRow :=
  dbSingle (activePlansOf plans sid)

/-- `StudentWorkout.loadStudentData` workout-plan fetch: a `.maybeSingle()`
query; on error or `null` data the page keeps `workoutPlan = null`. -/
def loadActiveWorkoutPlan (plans : List PlanRow) (sid : String) : Option PlanRow :=
  match dbMaybeSingle (activePlansOf plans sid) with
  | some (some r) => some r
  | _ => none

/-! ## Login (C5) -/

/-- Observable outcome of `Login.handleLogin`: the trainer identity held in
browser storage afterwards, the authentication session afterwards, and
whether an error notification was shown. -/
structure LoginOutcome where
  storedTrainer : Option TrainerRow
  session : Option String
  errorToast : Bool
deriving DecidableEq, Repr

/-- The rows matched by the trainer lookup
`.eq("auth_user_id", uid).eq("active", true)`. -/
def activeTrainerFor (trainers : List TrainerRow) (uid : String) : List TrainerRow :=
  trainers.filter fun t => t.auth_user_id == uid && t.active

/-- `Login.handleLogin`. `authResult` is the `signInWithPassword` outcome
(`some uid` on success); `stored0` is the trainer identity in browser
storage beforehand. On auth failure nothing is stored and no session
exists; on a failed trainer lookup the session is signed out; otherwise
the trainer row is stored. -/
def handleLogin (authResult : Option String) (trainers : List TrainerRow)
    (stored0 : Option TrainerRow) : LoginOutcome :=
  match authResult with
  | none => ⟨stored0, none, true⟩
  | some uid =>
    match dbSingle (activeTrainerFor trainers uid) with
    | none => ⟨stored0, none, true⟩
    | some t => ⟨some t, some uid, false⟩

/-! ## Backend-call traces of the non-retrying handlers (C4) -/

/-- The backend calls the modelled handlers can issue. -/
inductive BackendCall
  | signInWithPassword (email : String)
  | selectTrainer (uid : String)
  | selectStudents (tid : String)
  | selectWorkoutPlansOf (sid : String)
  | selectDietPlansOf (sid : String)
  | insertMealCompletion (mid sid : String)
  | deleteMealCompletion (mid sid : String)
  | insertExerciseCompletion (eid sid : String)
  | verifyAccess (sn : String)
  | selectActiveWorkoutPlan (sid : String)
  | selectExerciseCompletions (sid : String)
deriving DecidableEq, Repr

/-- Calls issued by one invocation of `StudentList.loadStudents`, with the
error-toast flag. `studentsResult` is the outcome of the students select;
on failure the handler returns after one call. On success it issues one
workout-plans and one diet-plans select per student. -/
def loadStudentsCalls (tid : String) (studentsResult : Option (List StudentRow)) :
    List BackendCall × Bool :=
  match studentsResult with
  | none => ([.selectStudents tid], true)
  | some sts =>
    (.selectStudents tid ::
      sts.flatMap (fun s => [.selectWorkoutPlansOf s.id, .selectDietPlansOf s.id]),
     false)

/-- Calls issued by one invocation of `StudentDiet.handleMealCompletion`:
one delete when the meal is in the completed set, one insert otherwise;
`ok` is the call's outcome and a failed call raises the error toast. -/
def handleMealCompletionCalls (mid sid : String) (isCompleted ok : Bool) :
    List BackendCall × Bool :=
  if isCompleted then ([.deleteMealCompletion mid sid], !ok)
  else ([.insertMealCompletion mid sid], !ok)

/-- Calls issued by `StudentWorkout.loadStudentData` (the reload path):
verify access, then on success the workout-plan select, then on a found
plan the completions select. -/
def loadStudentDataCalls (sn sid : String) (verifyOk planFound : Bool) :
    List BackendCall :=
  .verifyAccess sn ::
    (if verifyOk then
      .selectActiveWorkoutPlan sid ::
        (if planFound then [.selectExerciseCompletions sid] else [])
     else [])

/-- Calls issued by one invocation of
`StudentWorkout.markExerciseAsCompleted`: one insert; on failure the error
toast and nothing else; on success a single data reload. -/
def markExerciseAsCompletedCalls (eid sid sn : String)
    (insertOk verifyOk planFound : Bool) : List BackendCall × Bool :=
  if insertOk then
    (.insertExerciseCompletion eid sid :: loadStudentDataCalls sn sid verifyOk planFound,
     false)
  else ([.insertExerciseCompletion eid sid], true)

/-- Calls issued by one invocation of `Login.handleLogin`: the password
sign-in, then on success the trainer lookup; any failure raises the error
toast without another call. -/
def handleLoginCalls (email uid : String) (authOk lookupOk : Bool) :
    List BackendCall × Bool :=
  if authOk then ([.signInWithPassword email, .selectTrainer uid], !lookupOk)
  else ([.signInWithPassword email], true)

/-! ## Client-side sorting in the combined student view (C7) -/

/-- A `meals` row as shaped for display (identity and ordering key). -/
structure MealRow where
  id : String
  order_index : Int
deriving DecidableEq, Repr

/-- A `workout_sessions` row as shaped for display. -/
structure SessionRow where
  id : String
  day_of_week : Int
deriving DecidableEq, Repr

/-- A `workout_exercises` row as shaped for display. -/
structure WorkoutExerciseRow where
  id : String
  order_index : Int
deriving DecidableEq, Repr

/-- The comparator `(a, b) => a.order_index - b.order_index` on meals. -/
def mealLe (a b : MealRow) : Prop := a.order_index ≤ b.order_index

instance : DecidableRel mealLe := fun a b => Int.decLe a.order_index b.order_index

instance : IsTotal MealRow mealLe := ⟨fun a b => Int.le_total a.order_index b.order_index⟩

instance : IsTrans MealRow mealLe := ⟨fun _ _ _ h h2 => Int.le_trans h h2⟩

/-- The comparator `(a, b) => a.day_of_week - b.day_of_week` on sessions. -/
def sessionLe (a b : SessionRow) : Prop := a.day_of_week ≤ b.day_of_week

instance : DecidableRel sessionLe := fun a b => Int.decLe a.day_of_week b.day_of_week

instance : IsTotal SessionRow sessionLe := ⟨fun a b => Int.le_total a.day_of_week b.day_of_week⟩

instance : IsTrans SessionRow sessionLe := ⟨fun _ _ _ h h2 => Int.le_trans h h2⟩

/-- The comparator `(a, b) => a.order_index - b.order_index` on exercises. -/
def workoutExerciseLe (a b : WorkoutExerciseRow) : Prop := a.order_index ≤ b.order_index

instance : DecidableRel workoutExerciseLe := fun a b => Int.decLe a.order_index b.order_index

instance : IsTotal WorkoutExerciseRow workoutExerciseLe :=
  ⟨fun a b => Int.le_total a.order_index b.order_index⟩

instance : IsTrans WorkoutExerciseRow workoutExerciseLe := ⟨fun _ _ _ h h2 => Int.le_trans h h2⟩

/-- `StudentDiet.fetchStudentData` line `dietData.meals?.sort((a, b) =>
a.order_index - b.order_index)`: the displayed meal order. -/
def displayedMeals (ms : List MealRow) : List MealRow :=
  ms.insertionSort mealLe

/-- `StudentDiet` workout tab, `workout_sessions?.sort((a, b) =>
a.day_of_week - b.day_of_week)`: the displayed session order. -/
def displayedSessions (ss : List SessionRow) : List SessionRow :=
  ss.insertionSort sessionLe

/-- `StudentDiet` workout tab, `workout_exercises?.sort((a, b) =>
a.order_index - b.order_index)`: the displayed exercise order. -/
def displayedExercises (es : List WorkoutExerciseRow) : List WorkoutExerciseRow :=
  es.insertionSort workoutExerciseLe

/-! ## Trainer student-list load (C8) -/

/-- One entry of the list `StudentList.loadStudents` builds: the student
spread together with its `workoutPlans` and `dietPlans` arrays. -/
structure StudentWithPlans where
  student : StudentRow
  workoutPlans : List PlanRow
  dietPlans : List PlanRow
deriving DecidableEq, Repr

/-- The per-student body of the `Promise.all` in `loadStudents`: fetch the
student's workout and diet plans; on failure (modelled by `planFetch`
returning `none`) the catch block keeps the student with empty arrays. -/
def planEntry (planFetch : String → Option (List PlanRow × List PlanRow))
    (s : StudentRow) : StudentWithPlans :=
  match planFetch s.id with
  | some wd => ⟨s, wd.1, wd.2⟩
  | none => ⟨s, [], []⟩

/-- The `studentsWithPlans` list `StudentList.loadStudents` builds from the
fetched students. -/
def loadStudentsWithPlans (sts : List StudentRow)
    (planFetch : String → Option (List PlanRow × List PlanRow)) :
    List StudentWithPlans :=
  sts.map (planEntry planFetch)

/-! ## Completion actions on the student portal (C1, C9)

`StudentDiet` (the combined view) keeps two in-memory sets of ids
completed today and toggles them against the completion tables;
`StudentWorkout.markExerciseAsCompleted` and the standalone
`StudentDiet.markMealAsCompleted` page only insert. The state below pairs
the two tables with the two sets, and `stepAction` is the successful-call
semantics of one user action. -/

/-- Portal-visible state: the completion tables plus the component's
completed-today sets. -/
structure PortalState where
  meal_completions : List MealCompletionRow
  exercise_completions : List ExerciseCompletionRow
  completedMeals : Finset String
  completedExercises : Finset String
deriving DecidableEq

/-- The user actions that touch completion rows. -/
inductive StudentAction
  | toggleMeal (id : String)
  | toggleExercise (id : String)
  | markExercise (id : String)
  | markMeal (id : String)
deriving DecidableEq, Repr

/-- Rows kept by the delete
`.eq('meal_id', mid).eq('student_id', sid)` of `handleMealCompletion`
(note: no date filter). -/
def keptMealRow (mid sid : String) (r : MealCompletionRow) : Bool :=
  !(r.meal_id == mid && r.student_id == sid)

/-- Rows kept by the delete
`.eq('workout_exercise_id', eid).eq('student_id', sid)` of
`handleExerciseCompletion` (note: no date filter). -/
def keptExerciseRow (eid sid : String) (r : ExerciseCompletionRow) : Bool :=
  !(r.workout_exercise_id == eid && r.student_id == sid)

/-- One successful user action on the portal state for student `sid`,
with the backend stamping `now` on inserted rows. `toggleMeal` and
`toggleExercise` are `StudentDiet.handleMealCompletion` and
`handleExerciseCompletion`; `markExercise` is
`StudentWorkout.markExerciseAsCompleted`; `markMeal` is the standalone
diet page's `markMealAsCompleted`. -/
def stepAction (sid : String) (now : Nat) (a : StudentAction) (s : PortalState) :
    PortalState :=
  match a with
  | .toggleMeal mid =>
    if mid ∈ s.completedMeals then
      { s with
        meal_completions := s.meal_completions.filter (keptMealRow mid sid)
        completedMeals := s.completedMeals.erase mid }
    else
      { s with
        meal_completions := s.meal_completions ++ [⟨mid, sid, now⟩]
        completedMeals := insert mid s.completedMeals }
  | .toggleExercise eid =>
    if eid ∈ s.completedExercises then
      { s with
        exercise_completions := s.exercise_completions.filter (keptExerciseRow eid sid)
        completedExercises := s.completedExercises.erase eid }
    else
      { s with
        exercise_completions := s.exercise_completions ++ [⟨eid, sid, now⟩]
        completedExercises := insert eid s.completedExercises }
  | .markExercise eid =>
    { s with exercise_completions := s.exercise_completions ++ [⟨eid, sid, now⟩] }
  | .markMeal mid =>
    { s with meal_completions := s.meal_completions ++ [⟨mid, sid, now⟩] }

/-- A sequence of timestamped user actions, run left to right. -/
def runActions (sid : String) : List (Nat × StudentAction) → PortalState → PortalState
  | [], s => s
  | (t, a) :: rest, s => runActions sid rest (stepAction sid t a s)

/-- The empty portal state. -/
def initialPortalState : PortalState := ⟨[], [], ∅, ∅⟩

/-! ## Soft delete of a student (C10) -/

/-- The whole database the trainer views touch. -/
structure Db where
  students : List StudentRow
  workout_plans : List PlanRow
  diet_plans : List PlanRow
  meal_completions : List MealCompletionRow
  exercise_completions : List ExerciseCompletionRow
deriving DecidableEq, Repr

/-- The per-row effect of the update
`.update({ active: false }).eq("id", sid)`. -/
def setInactive (sid : String) (s : StudentRow) : StudentRow :=
  if s.id == sid then { s with active := false } else s

/-- `StudentList.deleteStudent`: an update on the `students` table only. -/
def deleteStudent (db : Db) (sid : String) : Db :=
  { db with students := db.students.map (setInactive sid) }

/-- Ordering used by `loadStudents`' `.order("created_at",
{ ascending: false })`. -/
def createdDesc (a b : StudentRow) : Prop := b.created_at ≤ a.created_at

instance : DecidableRel createdDesc := fun a b => Nat.decLe b.created_at a.created_at

instance : IsTotal StudentRow createdDesc := ⟨fun a b => Nat.le_total b.created_at a.created_at⟩

instance : IsTrans StudentRow createdDesc := ⟨fun _ _ _ h h2 => Nat.le_trans h2 h⟩

/-- The students select of `StudentList.loadStudents`:
`.eq("personal_trainer_id", tid).eq("active", true).order("created_at",
{ ascending: false })`. -/
def loadStudentsQuery (db : Db) (tid : String) : List StudentRow :=
  (db.students.filter fun s => s.personal_trainer_id == tid && s.active).insertionSort createdDesc

/-! ## Concrete sample data for witnesses and counterexamples -/

/-- A sample student. -/
def demoStudent1 : StudentRow := ⟨"s1", "t1", "Ana", none, none, "tok1", true, 100⟩

/-- A second sample student of the same trainer. -/
def demoStudent2 : StudentRow := ⟨"s2", "t1", "Bia", none, none, "tok2", true, 200⟩

/-- A sample student list with distinct ids. -/
def demoStudents : List StudentRow := [demoStudent1, demoStudent2]

/-- A sample active plan of student `s1`. -/
def demoPlan1 : PlanRow := ⟨"p1", "s1", "t1", "Plan A", true⟩

/-- A second active plan of student `s1`. -/
def demoPlan2 : PlanRow := ⟨"p2", "s1", "t1", "Plan B", true⟩

/-- A plans table holding two active plans for the same student. -/
def demoPlans : List PlanRow := [demoPlan1, demoPlan2]

/-- A sample active trainer row. -/
def demoTrainer : TrainerRow := ⟨"tr1", "u1", "Carla", "123", true⟩

/-- A trainers table with the one sample trainer. -/
def demoTrainers : List TrainerRow := [demoTrainer]

/-- A per-student plan fetch that always succeeds. -/
def demoFetch : String → Option (List PlanRow × List PlanRow) :=
  fun _ => some ([demoPlan1], [])

/-- The same fetch, failing for student `s2` only. -/
def demoFetchFail : String → Option (List PlanRow × List PlanRow) :=
  fun id => if id = "s2" then none else demoFetch id

/-- A portal state where meal `m1` is completed today with one stored row. -/
def demoPortalMeal : PortalState := ⟨[⟨"m1", "s1", 5⟩], [], {"m1"}, ∅⟩

/-- A portal state where meal `m1` has one completion row from the previous
day and one from today (day starting at `msPerDay`). -/
def demoTwoDayState : PortalState :=
  ⟨[⟨"m1", "s1", msPerDay - 1000⟩, ⟨"m1", "s1", msPerDay + 5⟩], [], {"m1"}, ∅⟩

/-- A sample database. -/
def demoDb : Db := ⟨demoStudents, demoPlans, [], [], []⟩

/-! ## Theorems -/

/-- C3: `loadStatsWithRetry` with the program's `retries = 3` attempts the
statistics load at most 3 times; it stops at the first successful attempt,
waits a flat 1000 ms after each failed non-final attempt (and not after the
final one), and shows the failure notification exactly when all 3 attempts
fail. -/
theorem loadStatsWithRetry_spec (o : Nat → Bool) :
    loadStatsWithRetry o 3 =
      (if o 0 then ⟨1, [], false⟩
       else if o 1 then ⟨2, [1000], false⟩
       else if o 2 then ⟨3, [1000, 1000], false⟩
       else ⟨3, [1000, 1000], true⟩) ∧
    (loadStatsWithRetry o 3).attempts ≤ 3 := by
  cases h0 : o 0 <;> cases h1 : o 1 <;> cases h2 : o 2 <;>
    simp [loadStatsWithRetry, retryFrom, h0, h1, h2]

/-- C7: the combined student view displays meals sorted by `order_index`
nondecreasing, workout sessions sorted by `day_of_week` nondecreasing, and
each session's exercises sorted by `order_index` nondecreasing; each
displayed list is a permutation of the fetched one. -/
theorem displayed_lists_sorted :
    (∀ ms : List MealRow,
      List.Sorted mealLe (displayedMeals ms) ∧ (displayedMeals ms).Perm ms) ∧
    (∀ ss : List SessionRow,
      List.Sorted sessionLe (displayedSessions ss) ∧ (displayedSessions ss).Perm ss) ∧
    (∀ es : List WorkoutExerciseRow,
      List.Sorted workoutExerciseLe (displayedExercises es) ∧
        (displayedExercises es).Perm es) :=
  ⟨fun ms => ⟨List.sorted_insertionSort mealLe ms, List.perm_insertionSort mealLe ms⟩,
   fun ss => ⟨List.sorted_insertionSort sessionLe ss, List.perm_insertionSort sessionLe ss⟩,
   fun es => ⟨List.sorted_insertionSort workoutExerciseLe es,
     List.perm_insertionSort workoutExerciseLe es⟩⟩

/-- C2 counterexample: the "completed today" check does not select the whole
client-computed UTC calendar day. A meal completion stamped at 23:59:59.000
of the day (here 86399000 ms after a day start of 0) lies inside the
calendar day but is not selected, because the query's upper bound is
`lt completed_at T23:59:59`, not the next day's start. -/
theorem completedToday_misses_last_second :
    ¬ (∀ (rows : List MealCompletionRow) (sid : String) (dayStart : Nat)
        (r : MealCompletionRow),
        r ∈ mealCompletionsToday rows sid dayStart ↔
          r ∈ rows ∧ r.student_id = sid ∧
            inUtcCalendarDay dayStart r.completed_at = true) := by
  intro h
  have hx := (h [⟨"m", "s", 86399000⟩] "s" 0 ⟨"m", "s", 86399000⟩).mpr (by decide)
  exact absurd hx (by decide)

/-- C2 (amended): each "completed today" check selects exactly the rows of
the student (resp. of the trainer's student ids) whose `completed_at` lies
in the window from the day's `T00:00:00` inclusive to `T23:59:59`
exclusive, i.e. the UTC calendar day shortened by its final second. -/
theorem completionsToday_window_spec :
    (∀ (rows : List MealCompletionRow) (sid : String) (dayStart : Nat)
        (r : MealCompletionRow),
      r ∈ mealCompletionsToday rows sid dayStart ↔
        r ∈ rows ∧ r.student_id = sid ∧
          dayStart ≤ r.completed_at ∧ r.completed_at < dayStart + (msPerDay - 1000)) ∧
    (∀ (rows : List ExerciseCompletionRow) (sid : String) (dayStart : Nat)
        (r : ExerciseCompletionRow),
      r ∈ exerciseCompletionsToday rows sid dayStart ↔
        r ∈ rows ∧ r.student_id = sid ∧
          dayStart ≤ r.completed_at ∧ r.completed_at < dayStart + (msPerDay - 1000)) ∧
    (∀ (rows : List ExerciseCompletionRow) (ids : List String) (dayStart : Nat)
        (r : ExerciseCompletionRow),
      r ∈ statsCompletionsToday rows ids dayStart ↔
        r ∈ rows ∧ r.student_id ∈ ids ∧
          dayStart ≤ r.completed_at ∧ r.completed_at < dayStart + (msPerDay - 1000)) := by
  refine ⟨fun rows sid dayStart r => ?_, fun rows sid dayStart r => ?_,
    fun rows ids dayStart r => ?_⟩ <;>
    simp [mealCompletionsToday, exerciseCompletionsToday, statsCompletionsToday,
      completedTodayWindow, lastSecondOffset, msPerDay, List.mem_filter, and_assoc]

/-- A `.single()` query returns a row exactly when it is the only matched
row. -/
theorem dbSingle_eq_some_iff {α : Type} (l : List α) (r : α) :
    dbSingle l = some r ↔ l = [r] := by
  match l with
  | [] => simp [dbSingle]
  | [a] => simp [dbSingle]
  | a :: b :: t => simp [dbSingle]

/-- A `.maybeSingle()` query followed by the portal's null-check yields a
row exactly when it is the only matched row. -/
theorem loadActiveWorkoutPlan_eq_some_iff (plans : List PlanRow) (sid : String)
    (r : PlanRow) :
    loadActiveWorkoutPlan plans sid = some r ↔ activePlansOf plans sid = [r] := by
  match h : activePlansOf plans sid with
  | [] => simp [loadActiveWorkoutPlan, dbMaybeSingle, h]
  | [a] => simp [loadActiveWorkoutPlan, dbMaybeSingle, h]
  | a :: b :: t => simp [loadActiveWorkoutPlan, dbMaybeSingle, h]

/-- C6: the portal's active-plan fetches return a plan exactly when exactly
one active plan row matches the student; with two or more active plans both
single-row queries fail and the portal keeps the empty state. -/
theorem activePlan_fetch_spec (plans : List PlanRow) (sid : String) :
    (∀ r, fetchActiveDietPlan plans sid = some r ↔ activePlansOf plans sid = [r]) ∧
    (∀ r, loadActiveWorkoutPlan plans sid = some r ↔ activePlansOf plans sid = [r]) ∧
    (2 ≤ (activePlansOf plans sid).length →
      fetchActiveDietPlan plans sid = none ∧ loadActiveWorkoutPlan plans sid = none) := by
  refine ⟨fun r => dbSingle_eq_some_iff _ r,
    fun r => loadActiveWorkoutPlan_eq_some_iff plans sid r, fun h2 => ?_⟩
  match h : activePlansOf plans sid with
  | [] => rw [h] at h2; simp at h2
  | [a] => rw [h] at h2; simp at h2
  | a :: b :: t =>
    constructor
    · simp [fetchActiveDietPlan, dbSingle, h]
    · simp [loadActiveWorkoutPlan, dbMaybeSingle, h]

/-- C6 witness: with two active plans for student `s1` both fetches fail
and the portal keeps the empty state. -/
theorem activePlan_fetch_spec_witness :
    fetchActiveDietPlan demoPlans "s1" = none ∧
      loadActiveWorkoutPlan demoPlans "s1" = none :=
  (activePlan_fetch_spec demoPlans "s1").2.2 (by decide)

/-- C5: login stores the trainer identity exactly when password
authentication succeeds and the active-trainer lookup finds a single
matching row; on auth failure nothing changes and no session exists; on a
failed lookup after successful auth the stored identity is unchanged and
the session is signed out; whenever the stored identity changed, both
steps succeeded. -/
theorem handleLogin_spec (auth : Option String) (trainers : List TrainerRow)
    (s0 : Option TrainerRow) :
    (auth = none → handleLogin auth trainers s0 = ⟨s0, none, true⟩) ∧
    (∀ uid, auth = some uid → dbSingle (activeTrainerFor trainers uid) = none →
      handleLogin auth trainers s0 = ⟨s0, none, true⟩) ∧
    (∀ uid t, auth = some uid → dbSingle (activeTrainerFor trainers uid) = some t →
      handleLogin auth trainers s0 = ⟨some t, some uid, false⟩) ∧
    ((handleLogin auth trainers s0).storedTrainer ≠ s0 →
      ∃ uid t, auth = some uid ∧ activeTrainerFor trainers uid = [t] ∧
        (handleLogin auth trainers s0).storedTrainer = some t) := by
  refine ⟨fun ha => ?_, fun uid ha hs => ?_, fun uid t ha hs => ?_, fun hne => ?_⟩
  · simp [handleLogin, ha]
  · simp [handleLogin, ha, hs]
  · simp [handleLogin, ha, hs]
  · rcases auth with _ | uid
    · simp [handleLogin] at hne
    · rcases hs : dbSingle (activeTrainerFor trainers uid) with _ | t
      · simp [handleLogin, hs] at hne
      · exact ⟨uid, t, rfl, (dbSingle_eq_some_iff _ t).mp hs, by simp [handleLogin, hs]⟩

/-- C5 witness: concrete runs of `handleLogin` through each case of the
characterization. -/
theorem handleLogin_spec_witness :
    handleLogin none demoTrainers none = ⟨none, none, true⟩ ∧
    handleLogin (some "nobody") demoTrainers none = ⟨none, none, true⟩ ∧
    handleLogin (some "u1") demoTrainers none = ⟨some demoTrainer, some "u1", false⟩ :=
  ⟨(handleLogin_spec none demoTrainers none).1 rfl,
   (handleLogin_spec (some "nobody") demoTrainers none).2.1 "nobody" rfl (by decide),
   (handleLogin_spec (some "u1") demoTrainers none).2.2.1 "u1" demoTrainer rfl (by decide)⟩

/-- Each entry built by `loadStudents` keeps its student unchanged. -/
theorem planEntry_student (planFetch : String → Option (List PlanRow × List PlanRow))
    (s : StudentRow) : (planEntry planFetch s).student = s := by
  rcases h : planFetch s.id with _ | wd <;> simp [planEntry, h]

/-- C8: a failing plan fetch for one student degrades only that student's
entry. The resulting list still carries every fetched student in order,
and with a fetch `g` that fails exactly for student id `x` (and agrees
with `f` elsewhere), the entry for `x` has empty plan arrays while every
other entry is the one `f` would have produced. -/
theorem loadStudents_degrades (sts : List StudentRow)
    (f g : String → Option (List PlanRow × List PlanRow)) (x : String)
    (hfg : ∀ id, id ≠ x → f id = g id) (hx : g x = none) :
    (loadStudentsWithPlans sts g).map StudentWithPlans.student = sts ∧
    loadStudentsWithPlans sts g =
      sts.map (fun s => if s.id = x then ⟨s, [], []⟩ else planEntry f s) := by
  constructor
  · rw [loadStudentsWithPlans, List.map_map]
    have hcongr : ∀ s ∈ sts, (StudentWithPlans.student ∘ planEntry g) s = id s :=
      fun s _ => planEntry_student g s
    rw [List.map_congr_left hcongr, List.map_id]
  · rw [loadStudentsWithPlans]
    refine List.map_congr_left fun s _ => ?_
    by_cases hs : s.id = x
    · simp [planEntry, hs, hx]
    · rw [planEntry, planEntry, hfg s.id hs, if_neg hs]

/-- C8 witness: with the fetch failing for student `s2` only, `s2` keeps an
entry with empty plan arrays, the other entry is unaffected, and no student
is dropped. -/
theorem loadStudents_degrades_witness :
    (loadStudentsWithPlans demoStudents demoFetchFail).map StudentWithPlans.student =
        demoStudents ∧
      loadStudentsWithPlans demoStudents demoFetchFail =
        demoStudents.map (fun s =>
          if s.id = "s2" then ⟨s, [], []⟩ else planEntry demoFetch s) :=
  loadStudents_degrades demoStudents demoFetch demoFetchFail "s2"
    (fun id h => by simp [demoFetchFail, h]) (by simp [demoFetchFail])

/-- C10: deleting a student is a soft delete. The operation touches only
the `students` table; no row is removed; every field other than `active`
of every row is unchanged; rows of other students are fully unchanged; the
targeted rows end with `active = false`; and the deleted student no longer
appears in the trainer's student list, which filters on `active = true`. -/
theorem deleteStudent_spec (db : Db) (sid : String) :
    (deleteStudent db sid).workout_plans = db.workout_plans ∧
    (deleteStudent db sid).diet_plans = db.diet_plans ∧
    (deleteStudent db sid).meal_completions = db.meal_completions ∧
    (deleteStudent db sid).exercise_completions = db.exercise_completions ∧
    (deleteStudent db sid).students = db.students.map (setInactive sid) ∧
    (deleteStudent db sid).students.length = db.students.length ∧
    (∀ s : StudentRow,
      (setInactive sid s).id = s.id ∧
      (setInactive sid s).personal_trainer_id = s.personal_trainer_id ∧
      (setInactive sid s).name = s.name ∧
      (setInactive sid s).email = s.email ∧
      (setInactive sid s).phone = s.phone ∧
      (setInactive sid s).unique_link_token = s.unique_link_token ∧
      (setInactive sid s).created_at = s.created_at) ∧
    (∀ s : StudentRow, s.id ≠ sid → setInactive sid s = s) ∧
    (∀ s : StudentRow, s.id = sid → (setInactive sid s).active = false) ∧
    (∀ tid : String, ∀ s : StudentRow,
      s ∈ loadStudentsQuery (deleteStudent db sid) tid → s.id ≠ sid) := by
  refine ⟨rfl, rfl, rfl, rfl, rfl, by simp [deleteStudent], fun s => ?_,
    fun s hs => ?_, fun s hs => ?_, fun tid s hs => ?_⟩
  · by_cases h : s.id = sid <;> simp [setInactive, h]
  · simp [setInactive, hs]
  · simp [setInactive, hs]
  · intro hsid
    rw [loadStudentsQuery] at hs
    have hmem := (List.perm_insertionSort createdDesc _).subset hs
    rw [List.mem_filter] at hmem
    obtain ⟨hmap, hp⟩ := hmem
    rw [deleteStudent] at hmap
    simp only [List.mem_map] at hmap
    obtain ⟨s0, _, heq⟩ := hmap
    by_cases h0 : s0.id = sid
    · rw [setInactive, if_pos (by simp [h0])] at heq
      rw [← heq] at hp
      simp at hp
    · rw [setInactive, if_neg (by simp [h0])] at heq
      rw [← heq] at hsid
      exact h0 hsid

/-- C10 witness: deleting `s1` from the sample database leaves the plan and
completion tables alone, leaves `s2` fully unchanged, flips `s1` to
inactive, and removes `s1` from the trainer's list. -/
theorem deleteStudent_spec_witness :
    (deleteStudent demoDb "s1").workout_plans = demoDb.workout_plans ∧
    setInactive "s1" demoStudent2 = demoStudent2 ∧
    (setInactive "s1" demoStudent1).active = false ∧
    (∀ s : StudentRow, s ∈ loadStudentsQuery (deleteStudent demoDb "s1") "t1" →
      s.id ≠ "s1") :=
  ⟨(deleteStudent_spec demoDb "s1").1,
   (deleteStudent_spec demoDb "s1").2.2.2.2.2.2.2.1 demoStudent2 (by decide),
   (deleteStudent_spec demoDb "s1").2.2.2.2.2.2.2.2.1 demoStudent1 rfl,
   fun s hs => (deleteStudent_spec demoDb "s1").2.2.2.2.2.2.2.2.2 "t1" s hs⟩

/-- C1 counterexample: completion rows are not append-only. From the empty
portal state, toggling meal `m1` inserts a completion row, and toggling it
again runs `handleMealCompletion`'s delete branch and removes it: a
reachable two-action sequence deletes an inserted `MealCompletion` row. -/
theorem completion_rows_not_append_only :
    (runActions "s1" [(5, .toggleMeal "m1")] initialPortalState).meal_completions =
      [⟨"m1", "s1", 5⟩] ∧
    (runActions "s1" [(5, .toggleMeal "m1"), (9, .toggleMeal "m1")]
        initialPortalState).meal_completions = [] := by
  constructor <;> rfl

/-- C1 (amended): completion rows are removed only by the combined view's
toggle handlers: whenever a stored meal (resp. exercise) completion row
disappears across one user action, that action was `handleMealCompletion`
(resp. `handleExerciseCompletion`) invoked on that row's item while the
item was in the completed-today set, and the row belongs to that student
and item; the insert-only paths never remove rows. -/
theorem completion_row_removal_spec (sid : String) (now : Nat)
    (a : StudentAction) (s : PortalState) :
    (∀ r : MealCompletionRow, r ∈ s.meal_completions →
      r ∉ (stepAction sid now a s).meal_completions →
      ∃ mid, a = .toggleMeal mid ∧ mid ∈ s.completedMeals ∧
        r.meal_id = mid ∧ r.student_id = sid) ∧
    (∀ r : ExerciseCompletionRow, r ∈ s.exercise_completions →
      r ∉ (stepAction sid now a s).exercise_completions →
      ∃ eid, a = .toggleExercise eid ∧ eid ∈ s.completedExercises ∧
        r.workout_exercise_id = eid ∧ r.student_id = sid) := by
  constructor
  · intro r hin hout
    match a with
    | .toggleMeal mid =>
      by_cases hm : mid ∈ s.completedMeals
      · refine ⟨mid, rfl, hm, ?_⟩
        rw [stepAction, if_pos hm] at hout
        have hkept : ¬ (keptMealRow mid sid r = true) := by
          intro hk
          exact hout (List.mem_filter.mpr ⟨hin, hk⟩)
        simp [keptMealRow] at hkept
        exact hkept
      · rw [stepAction, if_neg hm] at hout
        exact absurd (List.mem_append_left _ hin) hout
    | .toggleExercise eid =>
      rw [stepAction] at hout
      by_cases he : eid ∈ s.completedExercises
      · rw [if_pos he] at hout
        exact absurd hin hout
      · rw [if_neg he] at hout
        exact absurd hin hout
    | .markExercise eid => exact absurd hin hout
    | .markMeal mid =>
      rw [stepAction] at hout
      exact absurd (List.mem_append_left _ hin) hout
  · intro r hin hout
    match a with
    | .toggleExercise eid =>
      by_cases he : eid ∈ s.completedExercises
      · refine ⟨eid, rfl, he, ?_⟩
        rw [stepAction, if_pos he] at hout
        have hkept : ¬ (keptExerciseRow eid sid r = true) := by
          intro hk
          exact hout (List.mem_filter.mpr ⟨hin, hk⟩)
        simp [keptExerciseRow] at hkept
        exact hkept
      · rw [stepAction, if_neg he] at hout
        exact absurd (List.mem_append_left _ hin) hout
    | .toggleMeal mid =>
      rw [stepAction] at hout
      by_cases hm : mid ∈ s.completedMeals
      · rw [if_pos hm] at hout
        exact absurd hin hout
      · rw [if_neg hm] at hout
        exact absurd hin hout
    | .markMeal mid => exact absurd hin hout
    | .markExercise eid =>
      rw [stepAction] at hout
      exact absurd (List.mem_append_left _ hin) hout

/-- C1 amended-claim witness: on a state where meal `m1` is completed with
one stored row, toggling `m1` removes the row and the removal is accounted
for by the toggle handler. -/
theorem completion_row_removal_spec_witness :
    ∃ mid, StudentAction.toggleMeal "m1" = .toggleMeal mid ∧
      mid ∈ demoPortalMeal.completedMeals ∧
      MealCompletionRow.meal_id ⟨"m1", "s1", 5⟩ = mid ∧
      MealCompletionRow.student_id ⟨"m1", "s1", 5⟩ = "s1" :=
  (completion_row_removal_spec "s1" 9 (.toggleMeal "m1") demoPortalMeal).1
    ⟨"m1", "s1", 5⟩ (by decide) (by decide)

/-- C9 counterexample: the unmark branch does not delete only today's
completion row. Its delete filters on `meal_id` and `student_id` with no
date bound, so on a state holding a row from the previous day and a row
from today it removes both, while deleting only today's rows would keep
the older one. -/
theorem toggle_deletes_other_days :
    ¬ (∀ (s : PortalState) (sid mid : String) (now dayStart : Nat),
        mid ∈ s.completedMeals →
        (stepAction sid now (.toggleMeal mid) s).meal_completions =
          s.meal_completions.filter (fun r =>
            !(r.meal_id == mid && r.student_id == sid &&
              completedTodayWindow dayStart r.completed_at))) := by
  intro h
  have hx := h demoTwoDayState "s1" "m1" 5 msPerDay (by decide)
  exact absurd hx (by decide)

/-- C9 (amended): the combined view's completion handlers are toggles over
the completed-today sets. Unmarking deletes every completion row of that
student and item (regardless of day) and removes the item from the set;
marking inserts one row and adds the item; with successful backend calls,
applying the same handler twice restores the completed set to its original
value. -/
theorem toggle_handlers_spec (sid : String) (now1 now2 : Nat) (s : PortalState)
    (mid eid : String) :
    (mid ∈ s.completedMeals → stepAction sid now1 (.toggleMeal mid) s =
      { s with meal_completions := s.meal_completions.filter (keptMealRow mid sid)
               completedMeals := s.completedMeals.erase mid }) ∧
    (mid ∉ s.completedMeals → stepAction sid now1 (.toggleMeal mid) s =
      { s with meal_completions := s.meal_completions ++ [⟨mid, sid, now1⟩]
               completedMeals := insert mid s.completedMeals }) ∧
    ((stepAction sid now2 (.toggleMeal mid)
        (stepAction sid now1 (.toggleMeal mid) s)).completedMeals = s.completedMeals) ∧
    (eid ∈ s.completedExercises → stepAction sid now1 (.toggleExercise eid) s =
      { s with exercise_completions := s.exercise_completions.filter (keptExerciseRow eid sid)
               completedExercises := s.completedExercises.erase eid }) ∧
    (eid ∉ s.completedExercises → stepAction sid now1 (.toggleExercise eid) s =
      { s with exercise_completions := s.exercise_completions ++ [⟨eid, sid, now1⟩]
               completedExercises := insert eid s.completedExercises }) ∧
    ((stepAction sid now2 (.toggleExercise eid)
        (stepAction sid now1 (.toggleExercise eid) s)).completedExercises =
      s.completedExercises) := by
  refine ⟨fun hm => ?_, fun hm => ?_, ?_, fun he => ?_, fun he => ?_, ?_⟩
  · rw [stepAction, if_pos hm]
  · rw [stepAction, if_neg hm]
  · by_cases hm : mid ∈ s.completedMeals
    · have h1 : stepAction sid now1 (.toggleMeal mid) s =
          { s with meal_completions := s.meal_completions.filter (keptMealRow mid sid)
                   completedMeals := s.completedMeals.erase mid } := by
        rw [stepAction, if_pos hm]
      rw [h1]
      simp [stepAction, Finset.not_mem_erase, Finset.insert_erase hm]
    · have h1 : stepAction sid now1 (.toggleMeal mid) s =
          { s with meal_completions := s.meal_completions ++ [⟨mid, sid, now1⟩]
                   completedMeals := insert mid s.completedMeals } := by
        rw [stepAction, if_neg hm]
      rw [h1]
      simp [stepAction, Finset.mem_insert_self, Finset.erase_insert hm]
  · rw [stepAction, if_pos he]
  · rw [stepAction, if_neg he]
  · by_cases he : eid ∈ s.completedExercises
    · have h1 : stepAction sid now1 (.toggleExercise eid) s =
          { s with exercise_completions := s.exercise_completions.filter (keptExerciseRow eid sid)
                   completedExercises := s.completedExercises.erase eid } := by
        rw [stepAction, if_pos he]
      rw [h1]
      simp [stepAction, Finset.not_mem_erase, Finset.insert_erase he]
    · have h1 : stepAction sid now1 (.toggleExercise eid) s =
          { s with exercise_completions := s.exercise_completions ++ [⟨eid, sid, now1⟩]
                   completedExercises := insert eid s.completedExercises } := by
        rw [stepAction, if_neg he]
      rw [h1]
      simp [stepAction, Finset.mem_insert_self, Finset.erase_insert he]

/-- C9 amended-claim witness: a concrete unmark on a state where `m1` is
completed, a concrete mark from the empty state, and concrete double
applications restoring the completed sets. -/
theorem toggle_handlers_spec_witness :
    stepAction "s1" 9 (.toggleMeal "m1") demoPortalMeal =
      { demoPortalMeal with
        meal_completions := demoPortalMeal.meal_completions.filter (keptMealRow "m1" "s1")
        completedMeals := demoPortalMeal.completedMeals.erase "m1" } ∧
    stepAction "s1" 9 (.toggleExercise "e1") initialPortalState =
      { initialPortalState with
        exercise_completions := [⟨"e1", "s1", 9⟩]
        completedExercises := insert "e1" initialPortalState.completedExercises } ∧
    (stepAction "s1" 11 (.toggleMeal "m1")
        (stepAction "s1" 9 (.toggleMeal "m1") demoPortalMeal)).completedMeals =
      demoPortalMeal.completedMeals ∧
    (stepAction "s1" 11 (.toggleExercise "e1")
        (stepAction "s1" 9 (.toggleExercise "e1") initialPortalState)).completedExercises =
      initialPortalState.completedExercises :=
  ⟨(toggle_handlers_spec "s1" 9 11 demoPortalMeal "m1" "e1").1 (by decide),
   (toggle_handlers_spec "s1" 9 11 initialPortalState "m1" "e1").2.2.2.2.1 (by decide),
   (toggle_handlers_spec "s1" 9 11 demoPortalMeal "m1" "e1").2.2.1,
   (toggle_handlers_spec "s1" 9 11 initialPortalState "m1" "e1").2.2.2.2.2⟩

/-- Membership in the per-student plan-select block of `loadStudents`. -/
theorem mem_planSelectCalls (sts : List StudentRow) (c : BackendCall) :
    c ∈ sts.flatMap (fun s =>
        [BackendCall.selectWorkoutPlansOf s.id, BackendCall.selectDietPlansOf s.id]) ↔
      ∃ s ∈ sts, c = .selectWorkoutPlansOf s.id ∨ c = .selectDietPlansOf s.id := by
  simp [List.mem_flatMap]

/-- With pairwise-distinct student ids, the plan selects of `loadStudents`
are pairwise distinct calls. -/
theorem planSelectCalls_nodup (sts : List StudentRow)
    (h : (sts.map StudentRow.id).Nodup) :
    (sts.flatMap (fun s =>
      [BackendCall.selectWorkoutPlansOf s.id, BackendCall.selectDietPlansOf s.id])).Nodup := by
  induction sts with
  | nil => simp
  | cons s rest ih =>
    simp only [List.map_cons, List.nodup_cons] at h
    obtain ⟨hid, hrest⟩ := h
    rw [List.flatMap_cons, List.nodup_append]
    refine ⟨by simp, ih hrest, ?_⟩
    intro c hc hcr
    have hmem := (mem_planSelectCalls rest c).mp hcr
    obtain ⟨t, ht, hct⟩ := hmem
    have htid : t.id ∈ rest.map StudentRow.id := List.mem_map_of_mem StudentRow.id ht
    simp at hc
    rcases hc with hc | hc <;> rcases hct with hct | hct <;> rw [hc] at hct <;>
      simp at hct <;> exact hid (hct ▸ htid)

/-- C4: the non-statistics handlers never re-issue a backend call. On a
failed students select, `loadStudents` stops after that one call and
raises the error toast; on success its trace has no duplicate call
(given distinct student ids). `handleMealCompletion` issues exactly one
call and raises the toast on failure. `markExerciseAsCompleted` issues a
duplicate-free trace, and on a failed insert stops after the one insert
with the toast. `handleLogin` issues a duplicate-free trace, stops after
the sign-in call when it fails, and raises the toast on a failed lookup. -/
theorem no_retry_handlers_spec :
    (∀ tid : String,
      loadStudentsCalls tid none = ([.selectStudents tid], true)) ∧
    (∀ (tid : String) (sts : List StudentRow), (sts.map StudentRow.id).Nodup →
      ((loadStudentsCalls tid (some sts)).1).Nodup) ∧
    (∀ (mid sid : String) (isCompleted ok : Bool),
      ((handleMealCompletionCalls mid sid isCompleted ok).1).length = 1 ∧
      (ok = false → (handleMealCompletionCalls mid sid isCompleted ok).2 = true)) ∧
    (∀ (eid sid sn : String) (insertOk verifyOk planFound : Bool),
      ((markExerciseAsCompletedCalls eid sid sn insertOk verifyOk planFound).1).Nodup ∧
      (insertOk = false →
        markExerciseAsCompletedCalls eid sid sn insertOk verifyOk planFound =
          ([.insertExerciseCompletion eid sid], true))) ∧
    (∀ (email uid : String) (authOk lookupOk : Bool),
      ((handleLoginCalls email uid authOk lookupOk).1).Nodup ∧
      (authOk = false →
        handleLoginCalls email uid authOk lookupOk = ([.signInWithPassword email], true)) ∧
      (authOk = true → lookupOk = false →
        (handleLoginCalls email uid authOk lookupOk).2 = true)) := by
  refine ⟨fun tid => rfl, fun tid sts hids => ?_, fun mid sid b ok => ?_,
    fun eid sid sn io vo pf => ?_, fun email uid ao lo => ?_⟩
  · rw [loadStudentsCalls, List.nodup_cons]
    refine ⟨fun hmem => ?_, planSelectCalls_nodup sts hids⟩
    have := (mem_planSelectCalls sts _).mp hmem
    obtain ⟨t, _, hct⟩ := this
    rcases hct with hct | hct <;> exact BackendCall.noConfusion hct
  · cases b <;> cases ok <;> simp [handleMealCompletionCalls]
  · cases io <;> cases vo <;> cases pf <;>
      simp [markExerciseAsCompletedCalls, loadStudentDataCalls]
  · cases ao <;> cases lo <;> simp [handleLoginCalls]

/-- C4 witness: concrete traces with the hypotheses discharged — the
sample students have distinct ids, a failed completion call toasts, a
failed insert stops `markExerciseAsCompleted` after one call, and a failed
sign-in stops `handleLogin` after one call. -/
theorem no_retry_handlers_spec_witness :
    ((loadStudentsCalls "t1" (some demoStudents)).1).Nodup ∧
    (handleMealCompletionCalls "m1" "s1" true false).2 = true ∧
    markExerciseAsCompletedCalls "e1" "s1" "n1" false true true =
      ([.insertExerciseCompletion "e1" "s1"], true) ∧
    handleLoginCalls "ana@mail" "u1" false true = ([.signInWithPassword "ana@mail"], true) ∧
    (handleLoginCalls "ana@mail" "u1" true false).2 = true :=
  ⟨no_retry_handlers_spec.2.1 "t1" demoStudents (by decide),
   (no_retry_handlers_spec.2.2.1 "m1" "s1" true false).2 rfl,
   (no_retry_handlers_spec.2.2.2.1 "e1" "s1" "n1" false true true).2 rfl,
   (no_retry_handlers_spec.2.2.2.2 "ana@mail" "u1" false true).2.1 rfl,
   (no_retry_handlers_spec.2.2.2.2 "ana@mail" "u1" true false).2.2 rfl rfl⟩
